import Mathlib

/-!
Verification of the stream/scaler layer of `rust-ac-ffmpeg`.

We shallowly embed the Rust sources:
  * `src/codec/video/scaler.rs` — `VideoFrameScalerBuilder`, `VideoFrameScaler`
  * `src/format/stream.rs` (the `ac-ffmpeg` variant) — `Stream`, `SideDataIter`

Machine integers are embedded as `Int` (for `c_int`/`i64`) and `Nat`
(for `u32`/`usize`) with explicit modular truncation where Rust performs
an `as` cast.  Calls into native FFmpeg code are embedded as explicit
oracle parameters (the value the native call would return), and each
operation additionally reports whether the native engine was invoked,
so that "never touches the native code" claims are statable.
-/

namespace ACFFmpeg

/-- Rational time base (`num`, `den` are `u32` in the source).
Modelled from the spec: `TimeBase` lives in `crate::time`, which is not
among the surveyed source files; the spec describes it as an immutable
pair of unsigned integers with component-wise equality and a pure
constructor `new`. -/
structure TimeBase where
  num : Nat
  den : Nat
deriving DecidableEq, Repr

/-- Pure constructor, no validation (zero denominator is a caller-side
precondition in the spec, not checked). -/
def TimeBase.new (num den : Nat) : TimeBase := ⟨num, den⟩

/-- A pixel format is an opaque raw `c_int` tag (`PixelFormat::into_raw` /
`from_raw` are bijections onto the raw value). -/
abbrev PixelFormat := Int

/-- Decoded video frame as seen through the accessors the scaler uses:
`width()`, `height()`, `pixel_format()`, `time_base()` (all reads of the
native frame handle). -/
structure VideoFrame where
  width : Nat
  height : Nat
  pixel_format : PixelFormat
  time_base : TimeBase
deriving DecidableEq, Repr

/-- The native scaling engine handle, represented by the arguments that
`ffw_frame_scaler_new` received (that is all the information the native
engine holds of the configuration). -/
structure NativeScaler where
  sformat : Int
  swidth : Int
  sheight : Int
  tformat : Int
  twidth : Int
  theight : Int
  flags : Int
deriving DecidableEq, Repr

/-- `VideoFrameScaler` from `scaler.rs`: the engine pointer plus the fixed
source contract (`sformat`, `swidth`, `sheight`). -/
structure VideoFrameScaler where
  engine : NativeScaler
  sformat : PixelFormat
  swidth : Nat
  sheight : Nat
deriving DecidableEq, Repr

/-- `VideoFrameScalerBuilder` from `scaler.rs`.  Fields are `c_int`
(`tformat` is `Option<c_int>`). -/
structure VideoFrameScalerBuilder where
  sformat : Int
  swidth : Int
  sheight : Int
  tformat : Option Int
  twidth : Int
  theight : Int
  flags : Int
deriving DecidableEq, Repr

/-- Scaling algorithm flags (`Algorithm` enum, `#[repr(C)]` values). -/
def Algorithm.bicubic : Int := 4

/-- `VideoFrameScalerBuilder::new`. -/
def VideoFrameScalerBuilder.new : VideoFrameScalerBuilder :=
  { sformat := -1
    swidth := 0
    sheight := 0
    tformat := none
    twidth := 0
    theight := 0
    flags := Algorithm.bicubic }

/-- Rust's `usize as c_int` cast: truncate to 32 bits and reinterpret as a
signed 32-bit integer. -/
def usizeAsCInt (w : Nat) : Int :=
  let m : Nat := w % 2 ^ 32
  if m < 2 ^ 31 then (m : Int) else (m : Int) - 2 ^ 32

/-- `VideoFrameScalerBuilder::source_pixel_format`. -/
def VideoFrameScalerBuilder.source_pixel_format (b : VideoFrameScalerBuilder)
    (format : PixelFormat) : VideoFrameScalerBuilder :=
  { b with sformat := format }

/-- `VideoFrameScalerBuilder::source_width` (`width: usize`, stored via
`as _` into the `c_int` field). -/
def VideoFrameScalerBuilder.source_width (b : VideoFrameScalerBuilder)
    (width : Nat) : VideoFrameScalerBuilder :=
  { b with swidth := usizeAsCInt width }

/-- `VideoFrameScalerBuilder::source_height`. -/
def VideoFrameScalerBuilder.source_height (b : VideoFrameScalerBuilder)
    (height : Nat) : VideoFrameScalerBuilder :=
  { b with sheight := usizeAsCInt height }

/-- `VideoFrameScalerBuilder::target_pixel_format`. -/
def VideoFrameScalerBuilder.target_pixel_format (b : VideoFrameScalerBuilder)
    (format : PixelFormat) : VideoFrameScalerBuilder :=
  { b with tformat := some format }

/-- `VideoFrameScalerBuilder::target_width`. -/
def VideoFrameScalerBuilder.target_width (b : VideoFrameScalerBuilder)
    (width : Nat) : VideoFrameScalerBuilder :=
  { b with twidth := usizeAsCInt width }

/-- `VideoFrameScalerBuilder::target_height`. -/
def VideoFrameScalerBuilder.target_height (b : VideoFrameScalerBuilder)
    (height : Nat) : VideoFrameScalerBuilder :=
  { b with theight := usizeAsCInt height }

/-- `VideoFrameScalerBuilder::algorithm`. -/
def VideoFrameScalerBuilder.algorithm (b : VideoFrameScalerBuilder)
    (alg : Int) : VideoFrameScalerBuilder :=
  { b with flags := alg }

/-- `VideoFrameScalerBuilder::build`.  `allocOk` is the oracle for the one
native call `ffw_frame_scaler_new` (`false` = null pointer returned).  The
second component records whether that native allocation call was made. -/
def VideoFrameScalerBuilder.build (b : VideoFrameScalerBuilder)
    (allocOk : Bool) : Except String VideoFrameScaler × Bool :=
  let tformat := b.tformat.getD b.sformat
  if b.sformat < 0 then (.error "invalid source format", false)
  else if tformat < 0 then (.error "invalid target format", false)
  else if b.swidth < 1 then (.error "invalid source width", false)
  else if b.sheight < 1 then (.error "invalid source height", false)
  else if b.twidth < 1 then (.error "invalid target width", false)
  else if b.theight < 1 then (.error "invalid target height", false)
  else if allocOk then
    (.ok { engine :=
            { sformat := b.sformat
              swidth := b.swidth
              sheight := b.sheight
              tformat := tformat
              twidth := b.twidth
              theight := b.theight
              flags := b.flags }
           sformat := b.sformat
           swidth := b.swidth.toNat
           sheight := b.sheight.toNat }, true)
  else (.error "unable to create a frame scaler", true)

/-- Outcome of `VideoFrameScaler::scale`: a named recoverable error, a
panic (`unable to scale a frame`), or a new frame. -/
inductive ScaleOutcome where
  | err (msg : String)
  | fatal (msg : String)
  | ok (frame : VideoFrame)
deriving DecidableEq, Repr

/-- Raw native frame handle produced by `ffw_frame_scaler_scale` (shape of
the frame the engine returns, before the wrapper attaches a time base). -/
structure RawFrame where
  width : Nat
  height : Nat
  pixel_format : PixelFormat
deriving DecidableEq, Repr

/-- `VideoFrameScaler::scale`.  `engine` is the oracle for the native call
`ffw_frame_scaler_scale` (`none` = null result).  The second component
records whether the native engine was invoked. -/
def VideoFrameScaler.scale (s : VideoFrameScaler)
    (engine : VideoFrame → Option RawFrame) (frame : VideoFrame) :
    ScaleOutcome × Bool :=
  if s.swidth ≠ frame.width then (.err "frame width does not match", false)
  else if s.sheight ≠ frame.height then (.err "frame height does not match", false)
  else if s.sformat ≠ frame.pixel_format then
    (.err "frame pixel format does not match", false)
  else
    match engine frame with
    | none => (.fatal "unable to scale a frame", true)
    | some raw =>
        (.ok { width := raw.width
               height := raw.height
               pixel_format := raw.pixel_format
               time_base := frame.time_base }, true)

/-- Timestamp: a tick count in a given time base, or "unknown".
Modelled from the spec: `Timestamp` lives in `crate::time`, which is not
among the surveyed source files; the spec states that `Timestamp::new`
maps raw ticks at or below the "unknown" threshold to an explicit absent
state, and that for `start_time`/`duration` non-positive raw values map
to "unknown". -/
structure Timestamp where
  pts : Option Int
  time_base : TimeBase
deriving DecidableEq, Repr

/-- Modelled from the spec: `Timestamp::new` collapses non-positive raw
ticks to the absent state and otherwise wraps the tick with its base. -/
def Timestamp.new (pts : Int) (tb : TimeBase) : Timestamp :=
  if pts ≤ 0 then ⟨none, tb⟩ else ⟨some pts, tb⟩

/-- One stream side-data record: a type tag (`c_int`) and its bytes. -/
structure SideData where
  data_type : Int
  data : List Nat
deriving DecidableEq, Repr

/-- State of the native stream handle, as observable through the
`ffw_stream_*` calls `stream.rs` makes.  `metadata` is the sequence of
entries the native dictionary yields under sequential enumeration with
`AV_DICT_IGNORE_SUFFIX` (flag 2); `none` components stand for null
key/value pointers. -/
structure NativeStream where
  time_base_num : Nat
  time_base_den : Nat
  start_time : Int
  duration : Int
  nb_frames : Int
  stream_id : Int
  metadata : List (Option String × Option String)
  side_data : List SideData
deriving Repr

/-- `Stream` from `stream.rs`: the native handle plus the cached time
base. -/
structure Stream where
  native : NativeStream
  time_base : TimeBase

/-- `Stream::from_raw_ptr`: reads the time base from the native handle
into the cache. -/
def Stream.from_raw_ptr (ns : NativeStream) : Stream :=
  { native := ns
    time_base := TimeBase.new ns.time_base_num ns.time_base_den }

/-- `Stream::set_time_base`: updates the cache and writes through to the
native handle. -/
def Stream.set_time_base (s : Stream) (tb : TimeBase) : Stream :=
  { native := { s.native with time_base_num := tb.num, time_base_den := tb.den }
    time_base := tb }

/-- `Stream::start_time`: one native read of the raw pts, mapped through
`Timestamp::new` with the cached time base. -/
def Stream.start_time (s : Stream) : Timestamp :=
  Timestamp.new s.native.start_time s.time_base

/-- `Stream::duration`. -/
def Stream.duration (s : Stream) : Timestamp :=
  Timestamp.new s.native.duration s.time_base

/-- The error type of `crate::Error` as used by `add_side_data`:
`Error::from_raw_error_code(ret)` wraps the native status code. -/
inductive StreamError where
  | fromRawErrorCode (code : Int)
deriving DecidableEq, Repr

/-- `Stream::add_side_data`.  `ret` is the oracle for the status code the
native call `ffw_stream_add_side_data` returns. -/
def Stream.add_side_data (s : Stream) (data_type : Int) (data : List Nat)
    (ret : Int) : Except StreamError Unit :=
  if ret < 0 then .error (.fromRawErrorCode ret) else .ok ()

/-- `HashMap::insert` observed through lookup: the new binding shadows any
previous binding of the same key. -/
def hmInsert (m : String → Option String) (k v : String) :
    String → Option String :=
  fun q => if q = k then some v else m q

/-- The loop body of `Stream::metadata_dict`: entries with a null key or
value pointer are skipped, the rest are inserted in enumeration order. -/
def metadataDictFold (entries : List (Option String × Option String))
    (m : String → Option String) : String → Option String :=
  entries.foldl
    (fun m e =>
      match e with
      | (some k, some v) => hmInsert m k v
      | _ => m)
    m

/-- `Stream::metadata_dict`: walk all native entries (ignore-suffix mode)
into a fresh map. -/
def Stream.metadata_dict (s : Stream) : String → Option String :=
  metadataDictFold s.native.metadata (fun _ => none)

/-- Specification-side characterisation: the value of the
last-enumerated valid occurrence of key `k`, if any. -/
def lastValue (entries : List (Option String × Option String))
    (k : String) : Option String :=
  match entries with
  | [] => none
  | e :: rest =>
      match lastValue rest k with
      | some v => some v
      | none =>
          match e with
          | (some k2, some v) => if k2 = k then some v else none
          | _ => none

/-- `SideDataIter` from `stream.rs`: a borrowed view of the stream's
side-data array, a cursor, and the snapshot length. -/
structure SideDataIter where
  side_data : List SideData
  index : Nat
  len : Nat
deriving Repr

/-- `Stream::side_data`: `len` is the snapshot of
`ffw_stream_get_nb_side_data`, the cursor starts at 0. -/
def Stream.side_data (s : Stream) : SideDataIter :=
  { side_data := s.native.side_data
    index := 0
    len := s.native.side_data.length }

/-- `Iterator::next` for `SideDataIter`: `None` at the snapshot length,
otherwise the native indexed fetch plus a cursor increment. -/
def SideDataIter.next (it : SideDataIter) : Option SideData × SideDataIter :=
  if it.index = it.len then (none, it)
  else (some (it.side_data.getD it.index ⟨0, []⟩),
        { it with index := it.index + 1 })

/-- `Iterator::size_hint` for `SideDataIter`: equal lower and upper
bounds of `len - index`. -/
def SideDataIter.size_hint (it : SideDataIter) : Nat × Option Nat :=
  (it.len - it.index, some (it.len - it.index))

/-- The list of elements the iterator will still yield (repeated `next`
until `None`). -/
def SideDataIter.drain (it : SideDataIter) : List SideData :=
  if h : it.index < it.len then
    it.side_data.getD it.index ⟨0, []⟩ ::
      SideDataIter.drain { it with index := it.index + 1 }
  else []
termination_by it.len - it.index
decreasing_by
  omega

/-- Consistency of the cached time base with the native handle. -/
def timeBaseConsistent (s : Stream) : Prop :=
  s.time_base = TimeBase.new s.native.time_base_num s.native.time_base_den

/-- Folding the metadata entries over any initial map looks up to the
last-enumerated valid occurrence, falling back to the initial map. -/
theorem metadataDictFold_eq_lastValue
    (entries : List (Option String × Option String))
    (m : String → Option String) (k : String) :
    metadataDictFold entries m k =
      (match lastValue entries k with
       | some v => some v
       | none => m k) := by
  induction entries generalizing m with
  | nil => rfl
  | cons e rest ih =>
      have hstep :
          metadataDictFold (e :: rest) m =
            metadataDictFold rest
              (match e with
               | (some k2, some v) => hmInsert m k2 v
               | _ => m) := by
        simp [metadataDictFold]
      rw [hstep, ih]
      cases hr : lastValue rest k with
      | some v => simp [lastValue, hr]
      | none =>
          rcases e with ⟨ko, vo⟩
          cases ko with
          | none => simp [lastValue, hr]
          | some k2 =>
              cases vo with
              | none => simp [lastValue, hr]
              | some v =>
                  by_cases hk : k2 = k
                  · subst hk
                    simp [lastValue, hr, hmInsert]
                  · simp [lastValue, hr, hmInsert, hk, Ne.symm hk]

/-- The iterator drains exactly `len - index` elements. -/
theorem SideDataIter.drain_length (it : SideDataIter) :
    it.drain.length = it.len - it.index := by
  generalize hn : it.len - it.index = n
  induction n generalizing it with
  | zero =>
      unfold SideDataIter.drain
      rw [dif_neg (by omega)]
      rfl
  | succ n ih =>
      unfold SideDataIter.drain
      rw [dif_pos (by omega)]
      simp only [List.length_cons]
      rw [ih { it with index := it.index + 1 } (by simp; omega)]

/-- C1: `scale` checks the input frame against the scaler's fixed source
contract before any native call: a width mismatch yields the error
`frame width does not match`, otherwise a height mismatch yields
`frame height does not match`, otherwise a pixel-format mismatch yields
`frame pixel format does not match`; in every mismatch case the native
engine is not invoked (second component `false`). -/
theorem scale_mismatch_errors (s : VideoFrameScaler)
    (engine : VideoFrame → Option RawFrame) (frame : VideoFrame) :
    (s.swidth ≠ frame.width →
      s.scale engine frame = (.err "frame width does not match", false)) ∧
    (s.swidth = frame.width → s.sheight ≠ frame.height →
      s.scale engine frame = (.err "frame height does not match", false)) ∧
    (s.swidth = frame.width → s.sheight = frame.height →
      s.sformat ≠ frame.pixel_format →
      s.scale engine frame = (.err "frame pixel format does not match", false)) := by
  refine ⟨?_, ?_, ?_⟩ <;> intros <;> simp [VideoFrameScaler.scale, *]

/-- Witness for C1 at a concrete mismatching frame. -/
theorem scale_mismatch_errors_witness :
    VideoFrameScaler.scale
        { engine := { sformat := 0, swidth := 640, sheight := 480,
                      tformat := 0, twidth := 320, theight := 240, flags := 4 },
          sformat := 0, swidth := 640, sheight := 480 }
        (fun _ => none)
        { width := 100, height := 480, pixel_format := 0,
          time_base := ⟨1, 25⟩ } =
      (.err "frame width does not match", false) :=
  (scale_mismatch_errors _ _ _).1 (by decide)

/-- C2: `build` validates in order — negative source format, negative
resolved target format, source width < 1, source height < 1, target
width < 1, target height < 1 — returning the first failing check's named
error without allocating the native engine; the engine is allocated only
after all six checks pass, and a null allocation yields the error
`unable to create a frame scaler`. -/
theorem build_validation_order (b : VideoFrameScalerBuilder) (allocOk : Bool) :
    (b.sformat < 0 →
      b.build allocOk = (.error "invalid source format", false)) ∧
    (0 ≤ b.sformat → b.tformat.getD b.sformat < 0 →
      b.build allocOk = (.error "invalid target format", false)) ∧
    (0 ≤ b.sformat → 0 ≤ b.tformat.getD b.sformat → b.swidth < 1 →
      b.build allocOk = (.error "invalid source width", false)) ∧
    (0 ≤ b.sformat → 0 ≤ b.tformat.getD b.sformat → 1 ≤ b.swidth →
      b.sheight < 1 →
      b.build allocOk = (.error "invalid source height", false)) ∧
    (0 ≤ b.sformat → 0 ≤ b.tformat.getD b.sformat → 1 ≤ b.swidth →
      1 ≤ b.sheight → b.twidth < 1 →
      b.build allocOk = (.error "invalid target width", false)) ∧
    (0 ≤ b.sformat → 0 ≤ b.tformat.getD b.sformat → 1 ≤ b.swidth →
      1 ≤ b.sheight → 1 ≤ b.twidth → b.theight < 1 →
      b.build allocOk = (.error "invalid target height", false)) ∧
    (0 ≤ b.sformat → 0 ≤ b.tformat.getD b.sformat → 1 ≤ b.swidth →
      1 ≤ b.sheight → 1 ≤ b.twidth → 1 ≤ b.theight →
      (b.build allocOk).2 = true ∧
      (allocOk = false →
        (b.build allocOk).1 = .error "unable to create a frame scaler") ∧
      (allocOk = true →
        (b.build allocOk).1 = .ok
          { engine :=
              { sformat := b.sformat
                swidth := b.swidth
                sheight := b.sheight
                tformat := b.tformat.getD b.sformat
                twidth := b.twidth
                theight := b.theight
                flags := b.flags }
            sformat := b.sformat
            swidth := b.swidth.toNat
            sheight := b.sheight.toNat })) := by
  refine ⟨?_, ?_, ?_, ?_, ?_, ?_, ?_⟩ <;> intros <;>
    simp only [VideoFrameScalerBuilder.build]
  · rw [if_pos (by omega)]
  · rw [if_neg (by omega), if_pos (by omega)]
  · rw [if_neg (by omega), if_neg (by omega), if_pos (by omega)]
  · rw [if_neg (by omega), if_neg (by omega), if_neg (by omega),
        if_pos (by omega)]
  · rw [if_neg (by omega), if_neg (by omega), if_neg (by omega),
        if_neg (by omega), if_pos (by omega)]
  · rw [if_neg (by omega), if_neg (by omega), if_neg (by omega),
        if_neg (by omega), if_neg (by omega), if_pos (by omega)]
  · rw [if_neg (by omega), if_neg (by omega), if_neg (by omega),
        if_neg (by omega), if_neg (by omega), if_neg (by omega)]
    cases allocOk <;> simp

/-- Witness for C2 at a fully configured builder whose native allocation
returns null. -/
theorem build_validation_order_witness :
    (VideoFrameScalerBuilder.build
        (((((VideoFrameScalerBuilder.new.source_pixel_format 0).source_width
              640).source_height 480).target_width 320).target_height 240)
        false).1 = .error "unable to create a frame scaler" :=
  ((build_validation_order _ false).2.2.2.2.2.2 (by decide) (by decide)
      (by decide) (by decide) (by decide) (by decide)).2.1 rfl

/-- C5: every successful `scale` returns a frame whose time base is the
input frame's time base, verbatim, for every engine result. -/
theorem scale_preserves_time_base (s : VideoFrameScaler)
    (engine : VideoFrame → Option RawFrame) (frame out : VideoFrame)
    (invoked : Bool)
    (h : s.scale engine frame = (.ok out, invoked)) :
    out.time_base = frame.time_base := by
  simp only [VideoFrameScaler.scale] at h
  repeat' split at h
  all_goals simp_all
  rw [← h.1]

/-- Witness for C5 at a concrete successful scale. -/
theorem scale_preserves_time_base_witness :
    VideoFrame.time_base
        { width := 320, height := 240, pixel_format := 1,
          time_base := ⟨1, 25⟩ } =
      VideoFrame.time_base
        { width := 640, height := 480, pixel_format := 0,
          time_base := ⟨1, 25⟩ } :=
  scale_preserves_time_base
    { engine := { sformat := 0, swidth := 640, sheight := 480,
                  tformat := 1, twidth := 320, theight := 240, flags := 4 },
      sformat := 0, swidth := 640, sheight := 480 }
    (fun _ => some { width := 320, height := 240, pixel_format := 1 })
    { width := 640, height := 480, pixel_format := 0, time_base := ⟨1, 25⟩ }
    { width := 320, height := 240, pixel_format := 1, time_base := ⟨1, 25⟩ }
    true (by decide)

/-- C6: when the target pixel format was never set, `build` resolves the
effective target format to the source format: every scaler it returns has
its engine configured with `tformat` equal to the builder's source
format. -/
theorem build_default_target_format (b : VideoFrameScalerBuilder)
    (allocOk : Bool) (hnone : b.tformat = none) (s : VideoFrameScaler)
    (h : (b.build allocOk).1 = .ok s) :
    s.engine.tformat = b.sformat := by
  simp only [VideoFrameScalerBuilder.build, hnone, Option.getD_none] at h
  repeat' split at h
  all_goals simp_all
  rw [← h]

/-- Witness for C6: all six mandatory fields supplied, no target format;
the built scaler's engine target format equals the source format. -/
theorem build_default_target_format_witness :
    NativeScaler.tformat
        { sformat := 7, swidth := 640, sheight := 480, tformat := 7,
          twidth := 320, theight := 240, flags := 4 } =
      VideoFrameScalerBuilder.sformat
        (((((VideoFrameScalerBuilder.new.source_pixel_format 7).source_width
              640).source_height 480).target_width 320).target_height 240) :=
  build_default_target_format _ true rfl
    { engine := { sformat := 7, swidth := 640, sheight := 480, tformat := 7,
                  twidth := 320, theight := 240, flags := 4 },
      sformat := 7, swidth := 640, sheight := 480 }
    rfl

/-- C10: the four dimension setters store their `usize` argument by
truncation to a signed 32-bit value, so `build` validates the truncated
value: `2^32 + 5` is accepted as width 5, while `2^31` truncates to
`-2^31` and is rejected as `invalid source width`. -/
theorem dimension_setters_truncate (b : VideoFrameScalerBuilder) (w : Nat) :
    (b.source_width w).swidth = usizeAsCInt w ∧
    (b.source_height w).sheight = usizeAsCInt w ∧
    (b.target_width w).twidth = usizeAsCInt w ∧
    (b.target_height w).theight = usizeAsCInt w ∧
    usizeAsCInt (2 ^ 32 + 5) = 5 ∧
    usizeAsCInt (2 ^ 31) = -(2 ^ 31) ∧
    VideoFrameScalerBuilder.build
        (((((VideoFrameScalerBuilder.new.source_pixel_format 0).source_height
              480).target_width 320).target_height 240).source_width
          (2 ^ 32 + 5)) true =
      (.ok { engine := { sformat := 0, swidth := 5, sheight := 480,
                         tformat := 0, twidth := 320, theight := 240,
                         flags := 4 },
             sformat := 0, swidth := 5, sheight := 480 }, true) ∧
    VideoFrameScalerBuilder.build
        (((((VideoFrameScalerBuilder.new.source_pixel_format 0).source_height
              480).target_width 320).target_height 240).source_width
          (2 ^ 31)) true =
      (.error "invalid source width", false) :=
  ⟨rfl, rfl, rfl, rfl, by decide, by decide, rfl, rfl⟩

/-- C3: after `set_time_base(tb)` (with positive denominator),
`time_base()` returns exactly `tb`, the native handle holds `tb`'s
components, and the cache/native consistency invariant holds both after
the write and at construction (`from_raw_ptr`). -/
theorem set_time_base_roundtrip (s : Stream) (ns : NativeStream)
    (tb : TimeBase) (hden : 0 < tb.den) :
    (s.set_time_base tb).time_base = tb ∧
    (s.set_time_base tb).native.time_base_num = tb.num ∧
    (s.set_time_base tb).native.time_base_den = tb.den ∧
    timeBaseConsistent (s.set_time_base tb) ∧
    timeBaseConsistent (Stream.from_raw_ptr ns) := by
  refine ⟨rfl, rfl, rfl, ?_, rfl⟩
  simp [timeBaseConsistent, Stream.set_time_base, TimeBase.new]

/-- Witness for C3 at a concrete stream and time base `1/1000`. -/
theorem set_time_base_roundtrip_witness :
    ((Stream.from_raw_ptr
          { time_base_num := 1, time_base_den := 25, start_time := 0,
            duration := 0, nb_frames := 0, stream_id := 0, metadata := [],
            side_data := [] }).set_time_base ⟨1, 1000⟩).time_base =
      ⟨1, 1000⟩ :=
  (set_time_base_roundtrip _
      { time_base_num := 1, time_base_den := 25, start_time := 0,
        duration := 0, nb_frames := 0, stream_id := 0, metadata := [],
        side_data := [] }
      ⟨1, 1000⟩ (by decide)).1

/-- C4: `start_time` and `duration` each map the raw native tick value
through `Timestamp::new` with the stream's time base: the result is the
unknown timestamp exactly when the raw value is non-positive, and
otherwise carries the raw value and the stream's time base. -/
theorem start_time_duration_mapping (s : Stream) :
    s.start_time = Timestamp.new s.native.start_time s.time_base ∧
    s.duration = Timestamp.new s.native.duration s.time_base ∧
    (s.native.start_time ≤ 0 → s.start_time = ⟨none, s.time_base⟩) ∧
    (0 < s.native.start_time →
      s.start_time = ⟨some s.native.start_time, s.time_base⟩) ∧
    (s.native.duration ≤ 0 → s.duration = ⟨none, s.time_base⟩) ∧
    (0 < s.native.duration →
      s.duration = ⟨some s.native.duration, s.time_base⟩) := by
  refine ⟨rfl, rfl, ?_, ?_, ?_, ?_⟩ <;> intro h <;>
    simp only [Stream.start_time, Stream.duration, Timestamp.new]
  · rw [if_pos (by omega)]
  · rw [if_neg (by omega)]
  · rw [if_pos (by omega)]
  · rw [if_neg (by omega)]

/-- Witness for C4: a stream with positive start time and non-positive
duration. -/
theorem start_time_duration_mapping_witness :
    Stream.start_time
        { native := { time_base_num := 1, time_base_den := 1000,
                      start_time := 42, duration := -1, nb_frames := 0,
                      stream_id := 0, metadata := [], side_data := [] },
          time_base := ⟨1, 1000⟩ } =
        ⟨some 42, ⟨1, 1000⟩⟩ ∧
    Stream.duration
        { native := { time_base_num := 1, time_base_den := 1000,
                      start_time := 42, duration := -1, nb_frames := 0,
                      stream_id := 0, metadata := [], side_data := [] },
          time_base := ⟨1, 1000⟩ } =
        ⟨none, ⟨1, 1000⟩⟩ :=
  ⟨((start_time_duration_mapping _).2.2.2.1 (by decide)),
   ((start_time_duration_mapping _).2.2.2.2.1 (by decide))⟩

/-- C7: `add_side_data` returns the recoverable error carrying the native
status code exactly when the native append returns a negative status, and
`Ok(())` otherwise; no panic path exists. -/
theorem add_side_data_result (s : Stream) (dt : Int) (data : List Nat)
    (ret : Int) :
    (ret < 0 →
      s.add_side_data dt data ret = .error (.fromRawErrorCode ret)) ∧
    (0 ≤ ret → s.add_side_data dt data ret = .ok ()) := by
  constructor <;> intro h <;> simp only [Stream.add_side_data]
  · rw [if_pos h]
  · rw [if_neg (by omega)]

/-- Witness for C7 at status codes `-22` and `0`. -/
theorem add_side_data_result_witness :
    Stream.add_side_data
        { native := { time_base_num := 1, time_base_den := 25,
                      start_time := 0, duration := 0, nb_frames := 0,
                      stream_id := 0, metadata := [], side_data := [] },
          time_base := ⟨1, 25⟩ } 3 [1, 2, 3] (-22) =
        .error (.fromRawErrorCode (-22)) ∧
    Stream.add_side_data
        { native := { time_base_num := 1, time_base_den := 25,
                      start_time := 0, duration := 0, nb_frames := 0,
                      stream_id := 0, metadata := [], side_data := [] },
          time_base := ⟨1, 25⟩ } 3 [1, 2, 3] 0 = .ok () :=
  ⟨(add_side_data_result _ 3 [1, 2, 3] (-22)).1 (by decide),
   (add_side_data_result _ 3 [1, 2, 3] 0).2 (by decide)⟩

/-- C8: `metadata_dict` binds every key to the value of its
last-enumerated occurrence among the entries whose key and value pointers
are both non-null (entries with a null pointer are skipped); keys with no
valid occurrence are absent. -/
theorem metadata_dict_last_wins (s : Stream) (k : String) :
    s.metadata_dict k = lastValue s.native.metadata k := by
  rw [Stream.metadata_dict, metadataDictFold_eq_lastValue]
  cases lastValue s.native.metadata k <;> rfl

/-- C9: the side-data iterator's `size_hint` has equal lower and upper
bounds that always equal the exact number of remaining elements
(`drain.length`); it starts at the snapshot of the native count, `next`
returns `None` exactly when the cursor has reached the snapshot length,
and each `next` that yields an element decreases the reported length by
one while preserving the cursor bound. -/
theorem side_data_iter_size (s : Stream) (it : SideDataIter)
    (hwf : it.index ≤ it.len) :
    ((s.side_data).index = 0 ∧
     (s.side_data).len = s.native.side_data.length ∧
     (s.side_data).size_hint =
       (s.native.side_data.length, some s.native.side_data.length)) ∧
    it.size_hint = (it.drain.length, some it.drain.length) ∧
    ((it.next).1 = none ↔ it.index = it.len) ∧
    (∀ d it2, it.next = (some d, it2) →
      it2.index ≤ it2.len ∧ it2.size_hint.1 + 1 = it.size_hint.1) := by
  refine ⟨⟨rfl, rfl, by simp [Stream.side_data, SideDataIter.size_hint]⟩,
    ?_, ?_, ?_⟩
  · rw [SideDataIter.drain_length]
    rfl
  · constructor
    · intro h
      by_contra hne
      simp [SideDataIter.next, hne] at h
    · intro h
      simp [SideDataIter.next, h]
  · intro d it2 h
    by_cases he : it.index = it.len
    · simp [SideDataIter.next, he] at h
    · simp only [SideDataIter.next, if_neg he] at h
      injection h with h1 h2
      subst h2
      refine ⟨?_, ?_⟩
      · simp only []
        omega
      · simp only [SideDataIter.size_hint]
        omega

/-- Witness for C9 at a two-element iterator mid-iteration. -/
theorem side_data_iter_size_witness :
    SideDataIter.size_hint
        { side_data := [⟨3, [1]⟩, ⟨4, [2]⟩], index := 1, len := 2 } =
      ((SideDataIter.drain
          { side_data := [⟨3, [1]⟩, ⟨4, [2]⟩], index := 1, len := 2 }).length,
       some (SideDataIter.drain
          { side_data := [⟨3, [1]⟩, ⟨4, [2]⟩], index := 1, len := 2 }).length) :=
  (side_data_iter_size
      { native := { time_base_num := 1, time_base_den := 25,
                    start_time := 0, duration := 0, nb_frames := 0,
                    stream_id := 0, metadata := [], side_data := [] },
        time_base := ⟨1, 25⟩ }
      { side_data := [⟨3, [1]⟩, ⟨4, [2]⟩], index := 1, len := 2 }
      (by decide)).2.1

end ACFFmpeg
